import Mathlib

/-!
Verification of the FutureForms connection layer.

Part 1 embeds the HTTP transport class `Connection`
(src/public/FieldProperties.ts, second compilation unit: `get`, `post`,
`patch`, `invoke`) as pure Lean functions.  The outcome of the host
`fetch` call is passed in as an oracle value, and the side effects that
`invoke` performs (the FlightRecorder append and the fetch request
itself) are returned as an ordered event list.

Part 2 models the session / lock / transaction engine `RestConnection`
(src/database/Connection.js), whose source is not part of this excerpt:
only the delegating facade `DatabaseConnection` is.  Those definitions
are modelled from the specification and are marked as such.
-/

mutual
/-- A JavaScript value, as far as the transport layer distinguishes
them: `null`/`undefined`, booleans, integer numbers, strings, and
objects given as an ordered field list. -/
inductive JsVal where
  | null : JsVal
  | bool : Bool → JsVal
  | num  : Int → JsVal
  | str  : String → JsVal
  | obj  : JsFields → JsVal

/-- The ordered fields of a JavaScript object value. -/
inductive JsFields where
  | nil : JsFields
  | cons : String → JsVal → JsFields → JsFields
end

/-- JavaScript truthiness, as used by `if (payload)` and `if (url)` in
`Connection.invoke`: `null`, `false`, `0` and `""` are falsy, every
object is truthy. -/
def JsVal.truthy : JsVal → Bool
  | .null   => false
  | .bool b => b
  | .num n  => n != 0
  | .str s  => s != ""
  | .obj _  => true

/-- Whether the value is a string (`typeof payload == "string"`). -/
def JsVal.isStr : JsVal → Bool
  | .str _ => true
  | _      => false

/-- Escaping of `"` and backslash inside a JSON string literal. -/
def jsonEscape (s : String) : String :=
  String.join (s.data.map fun c =>
    if c = '"' then "\\\"" else if c = '\\' then "\\\\" else String.singleton c)

mutual
/-- `JSON.stringify` on the modelled value space. -/
def jsonStringify : JsVal → String
  | .null       => "null"
  | .bool true  => "true"
  | .bool false => "false"
  | .num n      => toString n
  | .str s      => "\"" ++ jsonEscape s ++ "\""
  | .obj fs     => "\x7b" ++ jsonStringifyFields fs ++ "\x7d"

/-- Comma-separated `"key":value` serialization of object fields. -/
def jsonStringifyFields : JsFields → String
  | .nil => ""
  | .cons k v .nil => "\"" ++ jsonEscape k ++ "\":" ++ jsonStringify v
  | .cons k v rest =>
      "\"" ++ jsonEscape k ++ "\":" ++ jsonStringify v ++ "," ++ jsonStringifyFields rest
end

/-- `String.prototype.endsWith`, computed on the character lists. -/
def endsWithStr (s suffix : String) : Bool :=
  suffix.data.isSuffixOf s.data

/-- Whether a character sequence contains the scheme separator "://",
marking an absolute URL. -/
def hasSchemeSep : List Char → Bool
  | [] => false
  | c :: rest => (c == ':' && "//".data.isPrefixOf rest) || hasSchemeSep rest

/-- Model of WHATWG `new URL(url, base)` as used by `invoke`: an
absolute URL (one containing "://") replaces the base, a relative one is
resolved against it. -/
def resolveURL (url : String) (base : String) : String :=
  if hasSchemeSep url.data then url
  else if endsWithStr base "/" then base ++ url
  else base ++ "/" ++ url

/-- An HTTP response, as `invoke` consumes it: the status line (never
inspected by the code), the body text (`http.text()`), and the body
parsed as JSON (`http.json()`). -/
structure HttpResponse where
  status : Nat
  text : String
  json : JsVal

/-- Outcome of the host `fetch` call: the promise either rejects with an
error value or resolves to a response. -/
inductive FetchResult where
  | rejected (err : JsVal)
  | resolved (resp : HttpResponse)

/-- `true` exactly when the fetch promise rejected. -/
def FetchResult.isRejected : FetchResult → Bool
  | .rejected _ => true
  | .resolved _ => false

/-- An observable side effect of `invoke`, in program order:
a `FlightRecorder.add` call or the fetch request itself. -/
inductive Event where
  | record (entry : String)
  | request (method : String) (endpoint : String) (headers : List (String × String))
      (body : JsVal)

/-- The mutable fields of the `Connection` class that `invoke` touches:
`base$`, `headers$`, `method$`, `success$`. -/
structure Conn where
  base : String
  headers : List (String × String)
  method : String
  success : Bool

/-- `Connection`'s constructor: `base$` is the given url, or the page
origin when none was given; `success$` starts true, `headers$` empty. -/
def Conn.mk0 (url : Option String) (origin : String) : Conn :=
  { base := url.getD origin, headers := [], method := "", success := true }

/-- The endpoint `invoke` computes: `new URL(this.base$)`, then
`if (url) endpoint = new URL(url, endpoint)` — a missing or empty
(falsy) url leaves the base endpoint. -/
def invokeEndpoint (base : String) (url : Option String) : String :=
  match url with
  | none => base
  | some u => if u = "" then base else resolveURL u base

/-- The payload after `invoke`'s serialization step: a truthy non-string
is replaced by `JSON.stringify` of it, everything else is untouched. -/
def serializePayload (payload : JsVal) : JsVal :=
  if payload.truthy && !payload.isStr then .str (jsonStringify payload) else payload

/-- The FlightRecorder entry text built by `invoke`. -/
def recorderEntry (endpoint : String) (payload : JsVal) : String :=
  "@connection: " ++ endpoint ++
    (if payload.truthy then " " ++ jsonStringify payload else "")

/-- `Connection.invoke` (src/public/FieldProperties.ts, lines 509-551).
Returns the body handed back to the caller, the updated connection
state, and the ordered list of side effects.  The fetch outcome is the
oracle argument `fr`. -/
def Conn.invoke (c : Conn) (url : Option String) (payload : JsVal) (raw : Bool)
    (fr : FetchResult) : JsVal × Conn × List Event :=
  let endpoint := invokeEndpoint c.base url
  let payload := serializePayload payload
  let events :=
    (if endsWithStr endpoint "ping" then []
     else [Event.record (recorderEntry endpoint payload)])
    ++ [Event.request c.method endpoint c.headers payload]
  match fr with
  | .rejected err =>
      let body := if raw then err
                  else .obj (.cons "success" (.bool false) (.cons "message" err .nil))
      (body, { c with success := false }, events)
  | .resolved resp =>
      let body := if raw then .str resp.text else resp.json
      (body, { c with success := true }, events)

/-- `Connection.get`: sets `method$` to "GET" and invokes with a null
payload. -/
def Conn.get (c : Conn) (url : Option String) (raw : Bool) (fr : FetchResult) :
    JsVal × Conn × List Event :=
  Conn.invoke { c with method := "GET" } url .null raw fr

/-- `Connection.post`: sets `method$` to "POST" and invokes. -/
def Conn.post (c : Conn) (url : Option String) (payload : JsVal) (raw : Bool)
    (fr : FetchResult) : JsVal × Conn × List Event :=
  Conn.invoke { c with method := "POST" } url payload raw fr

/-- `Connection.patch`: sets `method$` to "PATCH" and invokes. -/
def Conn.patch (c : Conn) (url : Option String) (payload : JsVal) (raw : Bool)
    (fr : FetchResult) : JsVal × Conn × List Event :=
  Conn.invoke { c with method := "PATCH" } url payload raw fr

/-- The body of the fetch request emitted by an invocation, if any. -/
def sentBody (events : List Event) : Option JsVal :=
  match events.reverse with
  | Event.request _ _ _ b :: _ => some b
  | _ => none

/-- The fetch request event emitted by an invocation, if any. -/
def sentRequest (events : List Event) : Option Event :=
  match events.reverse with
  | Event.request m e h b :: _ => some (Event.request m e h b)
  | _ => none

/-!
Refined response model.  In the source, the `.catch` handler protects
only the fetch promise itself; `await http.json()` is outside it, and
rejects when the response body is not valid JSON.  `HttpResponseRaw`
therefore carries the outcome of `JSON.parse` on the body text as an
oracle field: `jsonBody = some v` when parsing succeeds with `v`,
`jsonBody = none` when `http.json()` rejects.
-/

/-- An HTTP response before JSON parsing: status line (never inspected
by the code), body text (`http.text()`), and the outcome of parsing the
text as JSON (`http.json()` — `none` when the parse rejects). -/
structure HttpResponseRaw where
  status : Nat
  text : String
  jsonBody : Option JsVal

/-- Outcome of the host `fetch` call in the refined model. -/
inductive FetchOutcome where
  | rejected (err : JsVal)
  | resolved (resp : HttpResponseRaw)

/-- What `invoke`'s promise does for the caller: resolve with a body,
or reject (an unhandled `http.json()` rejection propagates). -/
inductive InvokeResult where
  | value (body : JsVal) : InvokeResult
  | thrown : InvokeResult

/-- `Connection.invoke` (src/public/FieldProperties.ts, lines 509-551)
with the fallibility of `await http.json()` modelled: the fetch catch
handler sets `success$` and the error body only when the fetch promise
itself rejects; if fetch resolves but the body is not valid JSON (and
`raw` is false), `body = await http.json()` rejects outside any catch
and the whole invocation throws, with `success$` left true and the
FlightRecorder entry and request already emitted. -/
def Conn.invokeJson (c : Conn) (url : Option String) (payload : JsVal)
    (raw : Bool) (fr : FetchOutcome) : InvokeResult × Conn × List Event :=
  let endpoint := invokeEndpoint c.base url
  let payload := serializePayload payload
  let events :=
    (if endsWithStr endpoint "ping" then []
     else [Event.record (recorderEntry endpoint payload)])
    ++ [Event.request c.method endpoint c.headers payload]
  match fr with
  | .rejected err =>
      let body := if raw then err
                  else .obj (.cons "success" (.bool false) (.cons "message" err .nil))
      (.value body, { c with success := false }, events)
  | .resolved resp =>
      if raw then (.value (.str resp.text), { c with success := true }, events)
      else
        match resp.jsonBody with
        | some v => (.value v, { c with success := true }, events)
        | none => (.thrown, { c with success := true }, events)

/-- `Connection.get` in the refined model. -/
def Conn.getJson (c : Conn) (url : Option String) (raw : Bool)
    (fr : FetchOutcome) : InvokeResult × Conn × List Event :=
  Conn.invokeJson { c with method := "GET" } url .null raw fr

/-- `Connection.post` in the refined model. -/
def Conn.postJson (c : Conn) (url : Option String) (payload : JsVal)
    (raw : Bool) (fr : FetchOutcome) : InvokeResult × Conn × List Event :=
  Conn.invokeJson { c with method := "POST" } url payload raw fr

/-- `Connection.patch` in the refined model. -/
def Conn.patchJson (c : Conn) (url : Option String) (payload : JsVal)
    (raw : Bool) (fr : FetchOutcome) : InvokeResult × Conn × List Event :=
  Conn.invokeJson { c with method := "PATCH" } url payload raw fr

example :
    (Conn.post (Conn.mk0 (some "http://h") "o") (some "svc") (.num 3) false
      (.resolved ⟨200, "t", .null⟩)).2.2 =
    [Event.record "@connection: http://h/svc \"3\"",
     Event.request "POST" "http://h/svc" [] (.str "3")] := rfl

/-!
Part 2: the session / lock / transaction engine.

`DatabaseConnection` (src/public/DatabaseConnection.ts) delegates every
operation to `RestConnection` (src/database/Connection.js), whose
implementation is not part of this excerpt.  The engine operations below
are therefore modelled from the specification (§3, §4.1-§4.3, §6, §7);
each carries a `Modelled from the spec:` note.  Transport outcomes are
oracle arguments, and the transport calls an operation makes are
returned as an explicit list, so that "rejected before any transport
call" is expressible.
-/

/-- `ConnectionScope` (src/database/ConnectionScope.js, declared in the
spec §3): Stateless, Stateful or Transactional. -/
inductive ConnectionScope where
  | stateless : ConnectionScope
  | stateful : ConnectionScope
  | transactional : ConnectionScope
deriving Repr, DecidableEq

/-- The error taxonomy of spec §7. -/
inductive DBError where
  | TransportError : DBError
  | AuthenticationFailed : DBError
  | NotConnected : DBError
  | LockLimitExceeded : DBError
  | SessionLost : DBError
  | InvalidConfiguration : DBError
deriving Repr, DecidableEq

/-- The process-wide limits of spec §3/§6: `MAXLOCKS`, `TRXTIMEOUT`,
`LOCKINSPECT`, `CONNTIMEOUT`. -/
structure Config where
  MAXLOCKS : Int
  TRXTIMEOUT : Int
  LOCKINSPECT : Int
  CONNTIMEOUT : Int
deriving Repr, DecidableEq

/-- The Session record of spec §3. -/
structure Session where
  scope : ConnectionScope
  connected : Bool
  handle : Option Nat
  lockCount : Nat
  lastActivityAt : Nat
deriving Repr, DecidableEq

/-- The kinds of data operation the facade exposes (spec §4.1). -/
inductive OpKind where
  | insert : OpKind
  | update : OpKind
  | delete : OpKind
  | script : OpKind
  | batch : OpKind
deriving Repr, DecidableEq

/-- A transport call made by an engine operation. -/
inductive TransportCall where
  | connectCall : TransportCall
  | disconnectCall : TransportCall
  | commitCall : TransportCall
  | rollbackCall : TransportCall
  | dmlCall : OpKind → TransportCall
deriving Repr, DecidableEq

namespace RestConnection

/-- Modelled from the spec: the static `RestConnection.MAXLOCKS` setter
(src/database/Connection.js, missing from the excerpt).  Spec §6: each
limit is a positive integer; a non-positive value is rejected with
`InvalidConfiguration` rather than stored. -/
def setMAXLOCKS (cfg : Config) (v : Int) : Except DBError Config :=
  if v ≤ 0 then .error .InvalidConfiguration else .ok { cfg with MAXLOCKS := v }

/-- Modelled from the spec: the static `RestConnection.TRXTIMEOUT`
setter; same validation as `setMAXLOCKS` (spec §6). -/
def setTRXTIMEOUT (cfg : Config) (v : Int) : Except DBError Config :=
  if v ≤ 0 then .error .InvalidConfiguration else .ok { cfg with TRXTIMEOUT := v }

/-- Modelled from the spec: the static `RestConnection.LOCKINSPECT`
setter; same validation as `setMAXLOCKS` (spec §6). -/
def setLOCKINSPECT (cfg : Config) (v : Int) : Except DBError Config :=
  if v ≤ 0 then .error .InvalidConfiguration else .ok { cfg with LOCKINSPECT := v }

/-- Modelled from the spec: the static `RestConnection.CONNTIMEOUT`
setter; same validation as `setMAXLOCKS` (spec §6). -/
def setCONNTIMEOUT (cfg : Config) (v : Int) : Except DBError Config :=
  if v ≤ 0 then .error .InvalidConfiguration else .ok { cfg with CONNTIMEOUT := v }

/-- Scope Policy (spec §4.1): whether an operation under this scope
needs a live session. -/
def requiresSession : ConnectionScope → Bool
  | .stateless => false
  | .stateful => true
  | .transactional => true

/-- Scope Policy (spec §4.1): whether a mutating data operation under
this scope takes a row lock. -/
def acquiresLock : ConnectionScope → Bool
  | .transactional => true
  | _ => false

/-- Modelled from the spec: `RestConnection.connect`
(src/database/Connection.js, missing from the excerpt).  Spec §4.3: on
success stores the session handle (none for Stateless scope), resets
the lock count and timestamps; fails on transport or authentication
failure, leaving the session as it was. -/
def connect (s : Session) (transportOk authOk : Bool) (handle : Nat) (now : Nat) :
    Bool × Session × List TransportCall :=
  if !transportOk || !authOk then (false, s, [.connectCall])
  else
    (true,
     { scope := s.scope,
       connected := true,
       handle := if s.scope = .stateless then none else some handle,
       lockCount := 0,
       lastActivityAt := now },
     [.connectCall])

/-- Modelled from the spec: `RestConnection.disconnect`
(src/database/Connection.js, missing from the excerpt).  Spec §4.3:
stops the Supervisor, best-effort informs the backend, clears the
Session; always succeeds locally even if the backend call fails, and a
second call on an already-disconnected session is a no-op success. -/
def disconnect (s : Session) (_transportOk : Bool) :
    Bool × Session × List TransportCall :=
  if !s.connected then (true, s, [])
  else
    (true, { s with connected := false, handle := none, lockCount := 0 },
     [.disconnectCall])

/-- Modelled from the spec: the lock-acquiring data operations
`RestConnection.insert/update/delete/script/batch`
(src/database/Connection.js, missing from the excerpt).  Spec §4.1:
a mutating operation under a session-requiring scope with
`connected == false` fails with `NotConnected`; §4.2: a lock-acquiring
operation is rejected with `LockLimitExceeded` before any transport
call when `lockCount + 1 > MAXLOCKS`; otherwise one transport call is
made, and on success `lastActivityAt` is updated and `lockCount`
incremented when a lock is acquired; §7: a transport failure surfaces
as `TransportError` and transitions the session to disconnected. -/
def dml (cfg : Config) (s : Session) (kind : OpKind) (transportOk : Bool)
    (now : Nat) : Except DBError Unit × Session × List TransportCall :=
  if requiresSession s.scope && !s.connected then
    (.error .NotConnected, s, [])
  else if acquiresLock s.scope && ((s.lockCount : Int) + 1 > cfg.MAXLOCKS) then
    (.error .LockLimitExceeded, s, [])
  else if transportOk then
    (.ok (),
     { s with
       lastActivityAt := now,
       lockCount := s.lockCount + (if acquiresLock s.scope then 1 else 0) },
     [.dmlCall kind])
  else
    (.error .TransportError,
     { s with connected := false, handle := none, lockCount := 0 },
     [.dmlCall kind])

/-- Modelled from the spec: the shared commit/rollback path of
`RestConnection` (src/database/Connection.js, missing from the
excerpt).  Spec §4.1/§7: under Stateless scope, without a session, or
with no locks held, commit and rollback degrade to a no-op success with
no transport call; a connected Transactional session holding locks
issues one transport call, clears `lockCount` on success, and returns
false only on transport failure (which also drops the session). -/
def txend (s : Session) (call : TransportCall) (transportOk : Bool) (now : Nat) :
    Bool × Session × List TransportCall :=
  if !s.connected || s.scope ≠ ConnectionScope.transactional || s.lockCount = 0 then
    (true, s, [])
  else if transportOk then
    (true, { s with lockCount := 0, lastActivityAt := now }, [call])
  else
    (false, { s with connected := false, handle := none, lockCount := 0 }, [call])

/-- Modelled from the spec: `RestConnection.commit`. -/
def commit (s : Session) (transportOk : Bool) (now : Nat) :
    Bool × Session × List TransportCall :=
  txend s .commitCall transportOk now

/-- Modelled from the spec: `RestConnection.rollback`. -/
def rollback (s : Session) (transportOk : Bool) (now : Nat) :
    Bool × Session × List TransportCall :=
  txend s .rollbackCall transportOk now

/-- N successive lock-acquiring operations, each with a successful
transport outcome, as in spec §8's lock-count property. -/
def runDml (cfg : Config) (s : Session) : Nat → Session
  | 0 => s
  | n + 1 => runDml cfg (dml cfg s .update true 0).2.1 n

end RestConnection

/-!
The public facade `DatabaseConnection` (src/public/DatabaseConnection.ts)
delegates every operation unchanged to the engine; the definitions below
mirror that delegation.
-/

namespace DatabaseConnection

/-- `DatabaseConnection.MAXLOCKS` setter (src/public/DatabaseConnection.ts,
line 50): delegates to `RestConnection.MAXLOCKS`. -/
def setMAXLOCKS : Config → Int → Except DBError Config :=
  RestConnection.setMAXLOCKS

/-- `DatabaseConnection.TRXTIMEOUT` setter (line 71): delegates. -/
def setTRXTIMEOUT : Config → Int → Except DBError Config :=
  RestConnection.setTRXTIMEOUT

/-- `DatabaseConnection.LOCKINSPECT` setter (line 92): delegates. -/
def setLOCKINSPECT : Config → Int → Except DBError Config :=
  RestConnection.setLOCKINSPECT

/-- `DatabaseConnection.CONNTIMEOUT` setter (line 112): delegates. -/
def setCONNTIMEOUT : Config → Int → Except DBError Config :=
  RestConnection.setCONNTIMEOUT

/-- `DatabaseConnection.connect` (line 249): delegates. -/
def connect : Session → Bool → Bool → Nat → Nat → Bool × Session × List TransportCall :=
  RestConnection.connect

/-- `DatabaseConnection.disconnect` (line 260): delegates. -/
def disconnect : Session → Bool → Bool × Session × List TransportCall :=
  RestConnection.disconnect

/-- `DatabaseConnection.commit` (line 280): delegates. -/
def commit : Session → Bool → Nat → Bool × Session × List TransportCall :=
  RestConnection.commit

/-- `DatabaseConnection.rollback` (line 290): delegates. -/
def rollback : Session → Bool → Nat → Bool × Session × List TransportCall :=
  RestConnection.rollback

/-- `DatabaseConnection.insert` (line 300): delegates. -/
def insert (cfg : Config) (s : Session) (transportOk : Bool) (now : Nat) :
    Except DBError Unit × Session × List TransportCall :=
  RestConnection.dml cfg s .insert transportOk now

/-- `DatabaseConnection.update` (line 311): delegates. -/
def update (cfg : Config) (s : Session) (transportOk : Bool) (now : Nat) :
    Except DBError Unit × Session × List TransportCall :=
  RestConnection.dml cfg s .update transportOk now

/-- `DatabaseConnection.delete` (line 322): delegates. -/
def delete (cfg : Config) (s : Session) (transportOk : Bool) (now : Nat) :
    Except DBError Unit × Session × List TransportCall :=
  RestConnection.dml cfg s .delete transportOk now

/-- `DatabaseConnection.script` (line 335): delegates. -/
def script (cfg : Config) (s : Session) (transportOk : Bool) (now : Nat) :
    Except DBError Unit × Session × List TransportCall :=
  RestConnection.dml cfg s .script transportOk now

/-- `DatabaseConnection.batch` (line 346): delegates. -/
def batch (cfg : Config) (s : Session) (transportOk : Bool) (now : Nat) :
    Except DBError Unit × Session × List TransportCall :=
  RestConnection.dml cfg s .batch transportOk now

end DatabaseConnection

/-!
Claim theorems.
-/

/-- C1: for every session, issuing a lock-acquiring operation
(insert/update/delete/script/batch under Transactional scope) when
`lockCount == MAXLOCKS` fails with `LockLimitExceeded`, leaves the
session (in particular `lockCount`) unchanged, and makes no transport
call. -/
theorem C1_lock_limit_fail_fast (cfg : Config) (s : Session)
    (transportOk : Bool) (now : Nat)
    (hscope : s.scope = ConnectionScope.transactional)
    (hconn : s.connected = true)
    (hfull : (s.lockCount : Int) = cfg.MAXLOCKS) :
    DatabaseConnection.insert cfg s transportOk now =
      (.error .LockLimitExceeded, s, []) ∧
    DatabaseConnection.update cfg s transportOk now =
      (.error .LockLimitExceeded, s, []) ∧
    DatabaseConnection.delete cfg s transportOk now =
      (.error .LockLimitExceeded, s, []) ∧
    DatabaseConnection.script cfg s transportOk now =
      (.error .LockLimitExceeded, s, []) ∧
    DatabaseConnection.batch cfg s transportOk now =
      (.error .LockLimitExceeded, s, []) := by
  have h : ∀ kind, RestConnection.dml cfg s kind transportOk now =
      (.error .LockLimitExceeded, s, []) := by
    intro kind
    unfold RestConnection.dml
    rw [hscope, hconn]
    simp only [RestConnection.requiresSession, RestConnection.acquiresLock,
      Bool.not_true, Bool.and_false, Bool.true_and, if_false]
    rw [if_neg (by simp), if_pos (by simp; omega)]
  exact ⟨h .insert, h .update, h .delete, h .script, h .batch⟩

/-- Witness for C1 at `MAXLOCKS = 2` and a full transactional session. -/
theorem C1_lock_limit_fail_fast_witness :
    (let cfg : Config := ⟨2, 10, 10, 10⟩
     let s : Session := ⟨.transactional, true, some 7, 2, 0⟩
     DatabaseConnection.update cfg s true 5 =
       (.error .LockLimitExceeded, s, [])) :=
  (C1_lock_limit_fail_fast ⟨2, 10, 10, 10⟩ ⟨.transactional, true, some 7, 2, 0⟩
    true 5 rfl rfl (by decide)).2.1

/-- A successful lock-acquiring step on a connected transactional
session below the lock ceiling: returns ok, increments `lockCount`,
updates `lastActivityAt`, makes one transport call. -/
theorem dml_ok_step (cfg : Config) (s : Session) (kind : OpKind) (now : Nat)
    (hscope : s.scope = ConnectionScope.transactional)
    (hconn : s.connected = true)
    (hroom : (s.lockCount : Int) + 1 ≤ cfg.MAXLOCKS) :
    RestConnection.dml cfg s kind true now =
      (.ok (), { s with lastActivityAt := now, lockCount := s.lockCount + 1 },
       [.dmlCall kind]) := by
  unfold RestConnection.dml
  rw [hscope, hconn]
  rw [if_neg (by simp [RestConnection.requiresSession])]
  rw [if_neg (by simp [RestConnection.acquiresLock]; omega)]
  simp [RestConnection.acquiresLock]

/-- Lock counting under repetition: starting from a connected
transactional session, `n` successful lock-acquiring operations keep
the session connected and raise `lockCount` by exactly `n`, provided
the ceiling is not hit. -/
theorem runDml_count (cfg : Config) : ∀ (n : Nat) (s : Session),
    s.scope = ConnectionScope.transactional → s.connected = true →
    (s.lockCount : Int) + n ≤ cfg.MAXLOCKS →
    (RestConnection.runDml cfg s n).scope = ConnectionScope.transactional ∧
    (RestConnection.runDml cfg s n).connected = true ∧
    (RestConnection.runDml cfg s n).lockCount = s.lockCount + n := by
  intro n
  induction n with
  | zero =>
      intro s hs hc _
      simpa [RestConnection.runDml] using ⟨hs, hc⟩
  | succ n ih =>
      intro s hs hc hb
      have hroom : (s.lockCount : Int) + 1 ≤ cfg.MAXLOCKS := by
        push_cast at hb ⊢; omega
      have hstep := dml_ok_step cfg s .update 0 hs hc hroom
      have : RestConnection.runDml cfg s (n + 1) =
          RestConnection.runDml cfg
            { s with lastActivityAt := 0, lockCount := s.lockCount + 1 } n := by
        simp [RestConnection.runDml, hstep]
      rw [this]
      have h := ih { s with lastActivityAt := 0, lockCount := s.lockCount + 1 }
        (by simpa using hs) (by simpa using hc)
        (by push_cast at hb ⊢; omega)
      exact ⟨h.1, h.2.1, by simpa [Nat.add_assoc, Nat.add_comm, Nat.add_left_comm] using h.2.2⟩

/-- C2: under Transactional scope on a connected session, after N
successful lock-acquiring operations `lockCount` equals N (for every
N ≤ MAXLOCKS), and a subsequent `commit()` or `rollback()` succeeds,
resets `lockCount` to 0, and leaves the session connected. -/
theorem C2_lock_count_commit_rollback (cfg : Config) (s : Session)
    (N : Nat) (now : Nat)
    (hscope : s.scope = ConnectionScope.transactional)
    (hconn : s.connected = true)
    (hzero : s.lockCount = 0)
    (hN : (N : Int) ≤ cfg.MAXLOCKS) :
    (RestConnection.runDml cfg s N).lockCount = N ∧
    (DatabaseConnection.commit (RestConnection.runDml cfg s N) true now).1 = true ∧
    (DatabaseConnection.commit (RestConnection.runDml cfg s N) true now).2.1.lockCount = 0 ∧
    (DatabaseConnection.commit (RestConnection.runDml cfg s N) true now).2.1.connected = true ∧
    (DatabaseConnection.rollback (RestConnection.runDml cfg s N) true now).1 = true ∧
    (DatabaseConnection.rollback (RestConnection.runDml cfg s N) true now).2.1.lockCount = 0 ∧
    (DatabaseConnection.rollback (RestConnection.runDml cfg s N) true now).2.1.connected = true := by
  obtain ⟨h1, h2, h3⟩ := runDml_count cfg N s hscope hconn (by rw [hzero]; push_cast; omega)
  rw [hzero] at h3
  simp only [Nat.zero_add] at h3
  have key : ∀ call,
      (RestConnection.txend (RestConnection.runDml cfg s N) call true now).1 = true ∧
      (RestConnection.txend (RestConnection.runDml cfg s N) call true now).2.1.lockCount = 0 ∧
      (RestConnection.txend (RestConnection.runDml cfg s N) call true now).2.1.connected = true := by
    intro call
    by_cases h0 : (RestConnection.runDml cfg s N).lockCount = 0
    · simp [RestConnection.txend, h1, h2, h0]
    · simp [RestConnection.txend, h1, h2, h0]
  exact ⟨h3,
    (key .commitCall).1, (key .commitCall).2.1, (key .commitCall).2.2,
    (key .rollbackCall).1, (key .rollbackCall).2.1, (key .rollbackCall).2.2⟩

/-- Witness for C2: the spec §8 scenario with `MAXLOCKS = 2` and two
successful updates followed by commit/rollback. -/
theorem C2_lock_count_commit_rollback_witness :
    (let cfg : Config := ⟨2, 10, 10, 10⟩
     let s : Session := ⟨.transactional, true, some 7, 0, 0⟩
     (RestConnection.runDml cfg s 2).lockCount = 2 ∧
     (DatabaseConnection.commit (RestConnection.runDml cfg s 2) true 9).1 = true ∧
     (DatabaseConnection.commit (RestConnection.runDml cfg s 2) true 9).2.1.lockCount = 0 ∧
     (DatabaseConnection.commit (RestConnection.runDml cfg s 2) true 9).2.1.connected = true ∧
     (DatabaseConnection.rollback (RestConnection.runDml cfg s 2) true 9).1 = true ∧
     (DatabaseConnection.rollback (RestConnection.runDml cfg s 2) true 9).2.1.lockCount = 0 ∧
     (DatabaseConnection.rollback (RestConnection.runDml cfg s 2) true 9).2.1.connected = true) :=
  C2_lock_count_commit_rollback ⟨2, 10, 10, 10⟩ ⟨.transactional, true, some 7, 0, 0⟩
    2 9 rfl rfl rfl (by decide)

/-- C3: for every scope and session state, `commit()` and `rollback()`
return false only on transport failure (a transport call was actually
made and failed), never merely because there was nothing to commit;
with no session or no locks they degrade to a no-op success with no
transport call and never raise `NotConnected`. -/
theorem C3_commit_rollback_fail_only_on_transport (s : Session) (t : Bool)
    (now : Nat) :
    ((DatabaseConnection.commit s t now).1 = false →
      t = false ∧ (DatabaseConnection.commit s t now).2.2 ≠ []) ∧
    ((DatabaseConnection.rollback s t now).1 = false →
      t = false ∧ (DatabaseConnection.rollback s t now).2.2 ≠ []) ∧
    (s.connected = false ∨ s.lockCount = 0 →
      DatabaseConnection.commit s t now = (true, s, []) ∧
      DatabaseConnection.rollback s t now = (true, s, [])) := by
  rcases s with ⟨scope, connected, handle, lockCount, last⟩
  cases connected <;> cases scope <;> cases t <;> by_cases h0 : lockCount = 0 <;>
    simp_all [DatabaseConnection.commit, DatabaseConnection.rollback,
      RestConnection.commit, RestConnection.rollback, RestConnection.txend]

/-- Witness for C3: a failed transactional commit implies a transport
failure, and a disconnected session commits/rolls back as a no-op
success. -/
theorem C3_commit_rollback_fail_only_on_transport_witness :
    (false = false ∧
      (DatabaseConnection.commit ⟨.transactional, true, some 1, 1, 0⟩ false 0).2.2 ≠ []) ∧
    (DatabaseConnection.commit ⟨.transactional, false, none, 0, 0⟩ true 0 =
      (true, ⟨.transactional, false, none, 0, 0⟩, []) ∧
     DatabaseConnection.rollback ⟨.transactional, false, none, 0, 0⟩ true 0 =
      (true, ⟨.transactional, false, none, 0, 0⟩, [])) :=
  ⟨(C3_commit_rollback_fail_only_on_transport ⟨.transactional, true, some 1, 1, 0⟩
      false 0).1 (by decide),
   (C3_commit_rollback_fail_only_on_transport ⟨.transactional, false, none, 0, 0⟩
      true 0).2.2 (Or.inl rfl)⟩

/-- C4: setting a non-positive value for any of `MAXLOCKS`,
`TRXTIMEOUT`, `LOCKINSPECT`, `CONNTIMEOUT` is rejected with
`InvalidConfiguration` rather than stored. -/
theorem C4_nonpositive_config_rejected (cfg : Config) (v : Int) (hv : v ≤ 0) :
    DatabaseConnection.setMAXLOCKS cfg v = .error .InvalidConfiguration ∧
    DatabaseConnection.setTRXTIMEOUT cfg v = .error .InvalidConfiguration ∧
    DatabaseConnection.setLOCKINSPECT cfg v = .error .InvalidConfiguration ∧
    DatabaseConnection.setCONNTIMEOUT cfg v = .error .InvalidConfiguration := by
  simp [DatabaseConnection.setMAXLOCKS, DatabaseConnection.setTRXTIMEOUT,
    DatabaseConnection.setLOCKINSPECT, DatabaseConnection.setCONNTIMEOUT,
    RestConnection.setMAXLOCKS, RestConnection.setTRXTIMEOUT,
    RestConnection.setLOCKINSPECT, RestConnection.setCONNTIMEOUT, hv]

/-- Witness for C4 at the non-positive value 0. -/
theorem C4_nonpositive_config_rejected_witness :
    (0 : Int) ≤ 0 ∧
    DatabaseConnection.setMAXLOCKS ⟨1, 1, 1, 1⟩ 0 = .error .InvalidConfiguration ∧
    DatabaseConnection.setTRXTIMEOUT ⟨1, 1, 1, 1⟩ 0 = .error .InvalidConfiguration ∧
    DatabaseConnection.setLOCKINSPECT ⟨1, 1, 1, 1⟩ 0 = .error .InvalidConfiguration ∧
    DatabaseConnection.setCONNTIMEOUT ⟨1, 1, 1, 1⟩ 0 = .error .InvalidConfiguration :=
  ⟨by decide, C4_nonpositive_config_rejected ⟨1, 1, 1, 1⟩ 0 (by decide)⟩

/-- C5: under Stateless scope, `commit()` and `rollback()` always
return success, change nothing, and make no transport call. -/
theorem C5_stateless_commit_rollback_noop (s : Session) (t : Bool) (now : Nat)
    (h : s.scope = ConnectionScope.stateless) :
    DatabaseConnection.commit s t now = (true, s, []) ∧
    DatabaseConnection.rollback s t now = (true, s, []) := by
  simp [DatabaseConnection.commit, DatabaseConnection.rollback,
    RestConnection.commit, RestConnection.rollback, RestConnection.txend, h]

/-- Witness for C5 on a connected stateless session with both transport
outcomes irrelevant. -/
theorem C5_stateless_commit_rollback_noop_witness :
    (Session.mk .stateless true none 0 3).scope = ConnectionScope.stateless ∧
    DatabaseConnection.commit ⟨.stateless, true, none, 0, 3⟩ false 9 =
      (true, ⟨.stateless, true, none, 0, 3⟩, []) ∧
    DatabaseConnection.rollback ⟨.stateless, true, none, 0, 3⟩ false 9 =
      (true, ⟨.stateless, true, none, 0, 3⟩, []) :=
  ⟨rfl, C5_stateless_commit_rollback_noop ⟨.stateless, true, none, 0, 3⟩ false 9 rfl⟩

/-- C6: `disconnect()` always succeeds locally and never leaves the
session marked connected, even when the backend call fails; a second
`disconnect()` is a no-op success. -/
theorem C6_disconnect_idempotent (s : Session) (t1 t2 : Bool) :
    (DatabaseConnection.disconnect s t1).1 = true ∧
    (DatabaseConnection.disconnect s t1).2.1.connected = false ∧
    DatabaseConnection.disconnect (DatabaseConnection.disconnect s t1).2.1 t2 =
      (true, (DatabaseConnection.disconnect s t1).2.1, []) := by
  rcases s with ⟨scope, connected, handle, lockCount, last⟩
  cases connected <;>
    simp [DatabaseConnection.disconnect, RestConnection.disconnect]

/-- C7 as stated fails on the code: the `.catch` handler protects only
the fetch promise, while `body = await http.json()` sits outside it.
At this concrete input — fetch resolves with an HTML error page whose
body is not valid JSON, `raw` false — the invocation throws instead of
returning a result, with `success$` left true. -/
theorem C7_counterexample :
    (Conn.postJson (Conn.mk0 (some "http://h") "o") (some "svc") .null false
        (.resolved ⟨500, "<html>error</html>", none⟩)).1 =
      InvokeResult.thrown ∧
    (Conn.postJson (Conn.mk0 (some "http://h") "o") (some "svc") .null false
        (.resolved ⟨500, "<html>error</html>", none⟩)).2.1.success = true :=
  ⟨rfl, rfl⟩

/-- C7 amended: a rejected fetch yields the body
`{success: false, message: err}` (the raw error when `raw`) with the
success flag false, without throwing; a resolved fetch yields the raw
text when `raw`, or the body parsed as JSON when the body is valid
JSON, with the success flag true — but when the resolved body fails
JSON parsing (and `raw` is false) the `http.json()` rejection
propagates and the invocation throws, the success flag left true. -/
theorem C7_invoke_result_amended (c : Conn) (url : Option String)
    (payload : JsVal) (raw : Bool) (err : JsVal) (resp : HttpResponseRaw)
    (v : JsVal) :
    (Conn.invokeJson c url payload raw (.rejected err)).1 =
      .value (if raw then err
              else .obj (.cons "success" (.bool false) (.cons "message" err .nil))) ∧
    (Conn.invokeJson c url payload raw (.rejected err)).2.1.success = false ∧
    (Conn.invokeJson c url payload true (.resolved resp)).1 =
      .value (.str resp.text) ∧
    (Conn.invokeJson c url payload true (.resolved resp)).2.1.success = true ∧
    (resp.jsonBody = some v →
      (Conn.invokeJson c url payload false (.resolved resp)).1 = .value v ∧
      (Conn.invokeJson c url payload false (.resolved resp)).2.1.success = true) ∧
    (resp.jsonBody = none →
      (Conn.invokeJson c url payload false (.resolved resp)).1 = .thrown ∧
      (Conn.invokeJson c url payload false (.resolved resp)).2.1.success = true) := by
  refine ⟨?_, ?_, ?_, ?_, ?_, ?_⟩
  · unfold Conn.invokeJson; simp
  · unfold Conn.invokeJson; simp
  · unfold Conn.invokeJson; simp
  · unfold Conn.invokeJson; simp
  · intro h
    unfold Conn.invokeJson
    simp [h]
  · intro h
    unfold Conn.invokeJson
    simp [h]

/-- Witness for C7 amended: a body that parses is returned as a value;
a body that does not parse makes the invocation throw with the success
flag left true. -/
theorem C7_invoke_result_amended_witness :
    ((HttpResponseRaw.mk 200 "7" (some (.num 7))).jsonBody = some (.num 7) ∧
     (Conn.invokeJson (Conn.mk0 (some "http://h") "o") (some "svc") .null false
        (.resolved ⟨200, "7", some (.num 7)⟩)).1 = .value (.num 7)) ∧
    ((HttpResponseRaw.mk 500 "<html>" none).jsonBody = none ∧
     (Conn.invokeJson (Conn.mk0 (some "http://h") "o") (some "svc") .null false
        (.resolved ⟨500, "<html>", none⟩)).1 = .thrown ∧
     (Conn.invokeJson (Conn.mk0 (some "http://h") "o") (some "svc") .null false
        (.resolved ⟨500, "<html>", none⟩)).2.1.success = true) :=
  ⟨⟨rfl,
    ((C7_invoke_result_amended (Conn.mk0 (some "http://h") "o") (some "svc")
        .null false .null ⟨200, "7", some (.num 7)⟩ (.num 7)).2.2.2.2.1 rfl).1⟩,
   ⟨rfl,
    ((C7_invoke_result_amended (Conn.mk0 (some "http://h") "o") (some "svc")
        .null false .null ⟨500, "<html>", none⟩ .null).2.2.2.2.2 rfl).1,
    ((C7_invoke_result_amended (Conn.mk0 (some "http://h") "o") (some "svc")
        .null false .null ⟨500, "<html>", none⟩ .null).2.2.2.2.2 rfl).2⟩⟩

/-- C8 as stated fails on the code: `invoke`'s serialization step is
guarded by JavaScript truthiness (`if (payload)`), so a falsy
non-string payload — here the boolean `false` — is handed to the
transport unchanged instead of as its JSON serialization "false". -/
theorem C8_counterexample :
    sentBody (Conn.post (Conn.mk0 (some "http://h") "o") (some "svc")
        (.bool false) false (.resolved ⟨200, "", .null⟩)).2.2 =
      some (.bool false) ∧
    sentBody (Conn.post (Conn.mk0 (some "http://h") "o") (some "svc")
        (.bool false) false (.resolved ⟨200, "", .null⟩)).2.2 ≠
      some (.str (jsonStringify (.bool false))) := by
  refine ⟨rfl, ?_⟩
  intro h
  rw [show sentBody (Conn.post (Conn.mk0 (some "http://h") "o") (some "svc")
        (.bool false) false (.resolved ⟨200, "", .null⟩)).2.2 =
      some (.bool false) from rfl] at h
  injection h with h1
  exact JsVal.noConfusion h1

/-- C8 amended: every invocation emits exactly one fetch request, whose
endpoint is the url resolved against the base (the base itself when no
or an empty url is given), whose method and headers are the stored
ones, and whose body is the payload after serialization: a truthy
non-string payload is JSON-serialized, a string payload is passed
verbatim, and a falsy payload is passed unchanged. -/
theorem C8_transport_request_parameters (c : Conn) (url : Option String)
    (payload : JsVal) (raw : Bool) (fr : FetchResult) :
    sentRequest (Conn.invoke c url payload raw fr).2.2 =
      some (Event.request c.method (invokeEndpoint c.base url) c.headers
        (serializePayload payload)) ∧
    (payload.isStr = true → serializePayload payload = payload) ∧
    (payload.truthy = true → payload.isStr = false →
      serializePayload payload = .str (jsonStringify payload)) ∧
    (payload.truthy = false → serializePayload payload = payload) ∧
    (∀ u : String, url = some u → u ≠ "" →
      invokeEndpoint c.base url = resolveURL u c.base) ∧
    (url = none → invokeEndpoint c.base url = c.base) := by
  refine ⟨?_, ?_, ?_, ?_, ?_, ?_⟩
  · unfold Conn.invoke
    cases fr <;> simp [sentRequest]
  · intro h
    simp [serializePayload, h]
  · intro h1 h2
    simp [serializePayload, h1, h2]
  · intro h
    simp [serializePayload, h]
  · intro u hu hne
    simp [invokeEndpoint, hu, hne]
  · intro h
    simp [invokeEndpoint, h]

/-- Witness for C8 amended: a truthy object payload is serialized, a
string payload passes verbatim, the falsy number 0 passes unchanged,
and the request is emitted with the resolved endpoint. -/
theorem C8_transport_request_parameters_witness :
    serializePayload (.obj .nil) = .str (jsonStringify (.obj .nil)) ∧
    serializePayload (.str "abc") = .str "abc" ∧
    serializePayload (.num 0) = .num 0 ∧
    invokeEndpoint "http://h" (some "svc") = resolveURL "svc" "http://h" ∧
    invokeEndpoint "http://h" none = "http://h" ∧
    sentRequest (Conn.post (Conn.mk0 (some "http://h") "o") (some "svc")
        (.obj .nil) false (.resolved ⟨200, "", .null⟩)).2.2 =
      some (.request "POST" "http://h/svc" [] (.str "\x7b\x7d")) :=
  ⟨(C8_transport_request_parameters (Conn.mk0 (some "http://h") "o") (some "svc")
      (.obj .nil) false (.resolved ⟨200, "", .null⟩)).2.2.1 rfl rfl,
   (C8_transport_request_parameters (Conn.mk0 (some "http://h") "o") (some "svc")
      (.str "abc") false (.resolved ⟨200, "", .null⟩)).2.1 rfl,
   (C8_transport_request_parameters (Conn.mk0 (some "http://h") "o") (some "svc")
      (.num 0) false (.resolved ⟨200, "", .null⟩)).2.2.2.1 rfl,
   (C8_transport_request_parameters (Conn.mk0 (some "http://h") "o") (some "svc")
      (.obj .nil) false (.resolved ⟨200, "", .null⟩)).2.2.2.2.1 "svc" rfl
      (by decide),
   (C8_transport_request_parameters (Conn.mk0 (some "http://h") "o") none
      (.obj .nil) false (.resolved ⟨200, "", .null⟩)).2.2.2.2.2 rfl,
   (C8_transport_request_parameters
      { Conn.mk0 (some "http://h") "o" with method := "POST" } (some "svc")
      (.obj .nil) false (.resolved ⟨200, "", .null⟩)).1⟩

/-- C9: the success flag reflects only the network-level outcome: it is
false exactly when fetch itself rejected, and a resolved response with
any HTTP status — including 4xx/5xx — leaves it true, its body parsed
and returned as a success. -/
theorem C9_success_reflects_fetch_only (c : Conn) (url : Option String)
    (payload : JsVal) (raw : Bool) (fr : FetchResult)
    (status : Nat) (text : String) (json : JsVal) :
    (Conn.invoke c url payload raw fr).2.1.success = !fr.isRejected ∧
    (Conn.invoke c url payload false (.resolved ⟨status, text, json⟩)).2.1.success
      = true ∧
    (Conn.invoke c url payload false (.resolved ⟨status, text, json⟩)).1 = json := by
  unfold Conn.invoke FetchResult.isRejected
  cases fr <;> simp

/-- C10: an invocation whose resolved endpoint does not end in "ping"
appends exactly one FlightRecorder entry — built from the endpoint and
the serialized payload — before the fetch request; one whose endpoint
ends in "ping" appends none. -/
theorem C10_flight_recorder_ping (c : Conn) (url : Option String)
    (payload : JsVal) (raw : Bool) (fr : FetchResult) :
    (endsWithStr (invokeEndpoint c.base url) "ping" = false →
      (Conn.invoke c url payload raw fr).2.2 =
        [Event.record (recorderEntry (invokeEndpoint c.base url)
           (serializePayload payload)),
         Event.request c.method (invokeEndpoint c.base url) c.headers
           (serializePayload payload)]) ∧
    (endsWithStr (invokeEndpoint c.base url) "ping" = true →
      (Conn.invoke c url payload raw fr).2.2 =
        [Event.request c.method (invokeEndpoint c.base url) c.headers
           (serializePayload payload)]) ∧
    (∀ p : JsVal, p.truthy = true →
      recorderEntry (invokeEndpoint c.base url) p =
        "@connection: " ++ invokeEndpoint c.base url ++ " " ++ jsonStringify p) := by
  refine ⟨?_, ?_, ?_⟩
  · intro h
    unfold Conn.invoke
    cases fr <;> simp [h]
  · intro h
    unfold Conn.invoke
    cases fr <;> simp [h]
  · intro p hp
    simp [recorderEntry, hp, String.append_assoc]

/-- Witness for C10: the endpoint "http://h/svc" is recorded before the
request, the endpoint "http://h/ping" is not recorded. -/
theorem C10_flight_recorder_ping_witness :
    (Conn.post (Conn.mk0 (some "http://h") "o") (some "svc") (.num 1) false
        (.resolved ⟨200, "", .null⟩)).2.2 =
      [Event.record (recorderEntry "http://h/svc" (serializePayload (.num 1))),
       Event.request "POST" "http://h/svc" [] (serializePayload (.num 1))] ∧
    (Conn.post (Conn.mk0 (some "http://h") "o") (some "ping") (.num 1) false
        (.resolved ⟨200, "", .null⟩)).2.2 =
      [Event.request "POST" "http://h/ping" [] (serializePayload (.num 1))] :=
  ⟨(C10_flight_recorder_ping
      { Conn.mk0 (some "http://h") "o" with method := "POST" } (some "svc")
      (.num 1) false (.resolved ⟨200, "", .null⟩)).1 rfl,
   (C10_flight_recorder_ping
      { Conn.mk0 (some "http://h") "o" with method := "POST" } (some "ping")
      (.num 1) false (.resolved ⟨200, "", .null⟩)).2.1 rfl⟩
